import Mathlib

/-!
Shallow embedding of the Space DJ Agent playlist player (src/src/App.tsx).

The component's React state hooks become fields of `AppState`; the event
handlers (`playTrack`, `togglePlay`, `handleSeek`, `handleVolumeChange`,
`removeTrack`, `handleFileUpload`, the `onEnded` listener, and the
per-frame `updateWaveform` callback) become pure state transformers.

Modelling decisions, each tied to the source:
* The hidden `<audio>` element (App.tsx line 498) is always rendered, so
  `audioRef.current` is always non-null once mounted; guards of the form
  `if (audioRef.current)` are therefore modelled as always taken.
* `audioContextRef` / `analyserRef` are set together by `initAudioContext`
  (lines 28-37); a single Boolean `audioCtxInit` tracks whether the graph
  exists.
* `currentTime` and `duration` of the audio element are modelled with the
  rationals; `duration` equals the current track's stored duration.
* Commands issued to the media handle (`play()` / `pause()` calls) are
  logged in `cmds` so that claims about "issuing a play command" are
  statable.
* Impure inputs (Date.now, Math.random, the asynchronously decoded
  duration, the analyser's byte output) are passed in as parameters.
-/

namespace SpaceDJ

/-- JavaScript `String.prototype.endsWith`, embedded over the character
list of the string. -/
def strEndsWith (s post : String) : Bool :=
  post.data.isSuffixOf s.data

/-- An uploaded file as the upload handler sees it: its `name` and its
declared MIME `type` (App.tsx line 60). -/
structure UploadFile where
  name : String
  type : String
deriving DecidableEq, Repr

/-- The `Track` interface (App.tsx lines 4-10). -/
structure Track where
  id : String
  name : String
  file : UploadFile
  url : String
  duration : ℚ
deriving DecidableEq, Repr

/-- A command issued to the underlying media handle. -/
inductive MediaCmd where
  | play
  | pause
deriving DecidableEq, Repr

/-- The component state: one field per React state hook plus the media
handle's position, the audio-graph flag and the command log. -/
structure AppState where
  tracks : List Track
  currentTrack : Option Track
  isPlaying : Bool
  progress : ℚ
  volume : ℚ
  isDragging : Bool
  waveformData : List ℕ
  audioCurrentTime : ℚ
  audioCtxInit : Bool
  cmds : List MediaCmd
deriving DecidableEq, Repr

/-- The analyser transform size `fftSize = 128` (App.tsx line 32); `frequencyBinCount` is half of it,
per the Web Audio API. -/
def fftSize : ℕ := 128

/-- The bin count `analyser.frequencyBinCount = fftSize / 2 = 64`. -/
def frequencyBinCount : ℕ := fftSize / 2

/-- The initial hook values (App.tsx lines 13-20): empty registry, no
current track, not playing, progress 0, volume 0.8, waveform
`new Array(64).fill(0)`. -/
def initialState : AppState :=
  { tracks := []
    currentTrack := none
    isPlaying := false
    progress := 0
    volume := 8/10
    isDragging := false
    waveformData := List.replicate 64 0
    audioCurrentTime := 0
    audioCtxInit := false
    cmds := [] }

/-- Handler `initAudioContext` (App.tsx lines 28-37): creates the audio graph once;
a no-op when the graph already exists. -/
def initAudioContext (s : AppState) : AppState :=
  if s.audioCtxInit then s else { s with audioCtxInit := true }

/-- Handler `togglePlay` (App.tsx lines 92-102): pauses when playing, otherwise
initialises the audio graph and plays; flips `isPlaying`. The
`if (audioRef.current)` guard always holds (hidden audio element,
line 498). -/
def togglePlay (s : AppState) : AppState :=
  if s.isPlaying then
    { s with isPlaying := false, cmds := s.cmds ++ [MediaCmd.pause] }
  else
    let s1 := initAudioContext s
    { s1 with isPlaying := true, cmds := s1.cmds ++ [MediaCmd.play] }

/-- Handler `playTrack` (App.tsx lines 77-90): if the clicked track is already
current (`currentTrack?.id === track.id`), delegate to `togglePlay`;
otherwise set it current, mark playing, then (in the timeout) initialise
the graph and issue `play()`. -/
def playTrack (s : AppState) (track : Track) : AppState :=
  if s.currentTrack.map Track.id = some track.id then
    togglePlay s
  else
    let s1 := { s with currentTrack := some track, isPlaying := true }
    let s2 := initAudioContext s1
    { s2 with cmds := s2.cmds ++ [MediaCmd.play] }

/-- Handler `handleSeek` (App.tsx lines 110-118) with the click position already
reduced to the fraction `percent = x / rect.width`: sets
`currentTime := percent * duration` and `progress := percent * 100`.
The element's `duration` is the current track's duration; with no track
loaded there is nothing to seek, so the state is returned unchanged. -/
def handleSeek (s : AppState) (percent : ℚ) : AppState :=
  match s.currentTrack with
  | some t =>
      { s with audioCurrentTime := percent * t.duration
               progress := percent * 100 }
  | none => s

/-- Handler `handleTimeUpdate` (App.tsx lines 104-108): on the platform's
`timeupdate` event, unless the drag guard is set, recompute `progress`
from the handle's position and the current track's duration. The event
only fires while media is loaded, so a current track exists. (The source
declares `isDragging` but never sets it to true; the field is kept for
faithfulness.) -/
def handleTimeUpdate (s : AppState) : AppState :=
  match s.currentTrack with
  | some t =>
      if s.isDragging then s
      else { s with progress := s.audioCurrentTime / t.duration * 100 }
  | none => s

/-- Handler `handleVolumeChange` (App.tsx lines 120-126) with the slider value
already parsed: stores it and applies it to the handle (one field here). -/
def handleVolumeChange (s : AppState) (newVolume : ℚ) : AppState :=
  { s with volume := newVolume }

/-- Handler `removeTrack` (App.tsx lines 134-140): filter the track out of the
registry; if it was current, clear the current track and stop playing. -/
def removeTrack (s : AppState) (id : String) : AppState :=
  let s1 := { s with tracks := s.tracks.filter (fun t => t.id ≠ id) }
  if s.currentTrack.map Track.id = some id then
    { s1 with currentTrack := none, isPlaying := false }
  else
    s1

/-- The upload filter (App.tsx line 60):
`file.type === 'audio/mpeg' || file.type === 'audio/mp3' || file.name.endsWith('.mp3')`. -/
def acceptsFile (f : UploadFile) : Bool :=
  f.type == "audio/mpeg" || f.type == "audio/mp3" || strEndsWith f.name ".mp3"

/-- Handler `handleFileUpload` (App.tsx lines 55-75): each file passing
`acceptsFile` is turned into a `Track` once its metadata resolves and
appended to the registry; every other file is skipped with no effect.
`decode` abstracts the impure track construction (object URL, Date.now +
Math.random id, asynchronously decoded duration). -/
def handleFileUpload (s : AppState) (files : List UploadFile)
    (decode : UploadFile → Track) : AppState :=
  { s with tracks := s.tracks ++ (files.filter acceptsFile).map decode }

/-- The `onEnded` listener on the audio element (App.tsx line 502):
`() => setIsPlaying(false)`. -/
def onEnded (s : AppState) : AppState :=
  { s with isPlaying := false }

/-- Callback `updateWaveform` (App.tsx lines 39-46): when the analyser exists and
playback is active, read `frequencyBinCount` byte magnitudes and publish
them as the new snapshot; otherwise leave the snapshot alone. `sample`
abstracts `getByteFrequencyData`, whose outputs are bytes (`Fin 256`). -/
def updateWaveform (s : AppState) (sample : ℕ → Fin 256) : AppState :=
  if s.audioCtxInit && s.isPlaying then
    { s with waveformData :=
        (List.range frequencyBinCount).map (fun i => (sample i).val) }
  else s

/-- Bar height for one bin (App.tsx lines 262 and 267):
`Math.max(4, (value / 255) * 100)` percent. -/
def barHeight (value : ℕ) : ℚ :=
  max 4 ((value : ℚ) / 255 * 100)

/-- The waveform-bar render (App.tsx lines 256-271): one bar per snapshot
entry; animated height is `barHeight value` while playing and the 4%
minimum otherwise. -/
def renderBars (waveformData : List ℕ) (isPlaying : Bool) : List ℚ :=
  waveformData.map (fun value => if isPlaying then barHeight value else 4)

/-- One user- or platform-driven event of the component, with the
enabledness each handler has in the rendered UI:
* `upload` — the file input (always rendered, line 400);
* `select` — clicking a row of the track list (line 431), so the track is
  in the registry;
* `toggle` — the play/pause button (line 325), rendered only inside the
  `currentTrack ?` branch (line 294), so a current track exists;
* `remove` — a per-row delete button (line 469), so the id is in the
  registry;
* `seek` — clicking the progress bar (line 344), also only rendered with
  a current track, at a fraction of its width;
* `setVol` — the volume slider (line 359), whose range is `[0, 1]`;
* `ended` / `frame` — platform callbacks (lines 502 and 45). -/
inductive Step : AppState → AppState → Prop where
  | upload (s : AppState) (files : List UploadFile) (decode : UploadFile → Track) :
      Step s (handleFileUpload s files decode)
  | select (s : AppState) (track : Track) (h : track ∈ s.tracks) :
      Step s (playTrack s track)
  | toggle (s : AppState) (h : s.currentTrack.isSome) :
      Step s (togglePlay s)
  | remove (s : AppState) (id : String) (h : id ∈ s.tracks.map Track.id) :
      Step s (removeTrack s id)
  | seek (s : AppState) (percent : ℚ) (h : s.currentTrack.isSome)
      (hp : 0 ≤ percent ∧ percent ≤ 1) :
      Step s (handleSeek s percent)
  | setVol (s : AppState) (v : ℚ) (h : 0 ≤ v ∧ v ≤ 1) :
      Step s (handleVolumeChange s v)
  | ended (s : AppState) :
      Step s (onEnded s)
  | timeupdate (s : AppState) (h : s.currentTrack.isSome) :
      Step s (handleTimeUpdate s)
  | frame (s : AppState) (sample : ℕ → Fin 256) :
      Step s (updateWaveform s sample)

/-- A state the component can be in: reachable from the mount state by a
sequence of events. -/
def Reachable (s : AppState) : Prop :=
  Relation.ReflTransGen Step initialState s

/-! Concrete inputs used by the witnesses. -/

/-- A well-formed MP3 upload. -/
def demoFile : UploadFile := { name := "track1.mp3", type := "audio/mpeg" }

/-- A `.wav` upload (rejected by the filter). -/
def wavFile : UploadFile := { name := "song.wav", type := "audio/wav" }

/-- A file whose declared MIME type is `audio/mp3` but whose name does not
end in `.mp3`. -/
def mp3TypedWav : UploadFile := { name := "song.wav", type := "audio/mp3" }

/-- A concrete stand-in for the impure track construction: deterministic
id and a 180-second duration. -/
def decodeStub (f : UploadFile) : Track :=
  { id := f.name, name := f.name, file := f, url := f.name, duration := 180 }

/-- The demo track produced by uploading `demoFile`. -/
def demoTrack : Track := decodeStub demoFile

/-- State after uploading `demoFile` into the fresh component. -/
def uploadedState : AppState := handleFileUpload initialState [demoFile] decodeStub

/-- State after then selecting `demoTrack`: it is current and playing. -/
def playingState : AppState := playTrack uploadedState demoTrack

/-! Field-preservation lemmas for the operations with branching bodies. -/

@[simp] theorem initAudioContext_currentTrack (s : AppState) :
    (initAudioContext s).currentTrack = s.currentTrack := by
  unfold initAudioContext; split <;> rfl

@[simp] theorem initAudioContext_isPlaying (s : AppState) :
    (initAudioContext s).isPlaying = s.isPlaying := by
  unfold initAudioContext; split <;> rfl

@[simp] theorem initAudioContext_waveformData (s : AppState) :
    (initAudioContext s).waveformData = s.waveformData := by
  unfold initAudioContext; split <;> rfl

@[simp] theorem initAudioContext_tracks (s : AppState) :
    (initAudioContext s).tracks = s.tracks := by
  unfold initAudioContext; split <;> rfl

@[simp] theorem initAudioContext_cmds (s : AppState) :
    (initAudioContext s).cmds = s.cmds := by
  unfold initAudioContext; split <;> rfl

@[simp] theorem togglePlay_currentTrack (s : AppState) :
    (togglePlay s).currentTrack = s.currentTrack := by
  unfold togglePlay; split <;> simp

@[simp] theorem togglePlay_isPlaying (s : AppState) :
    (togglePlay s).isPlaying = !s.isPlaying := by
  unfold togglePlay; split <;> simp_all

@[simp] theorem togglePlay_waveformData (s : AppState) :
    (togglePlay s).waveformData = s.waveformData := by
  unfold togglePlay; split <;> simp

@[simp] theorem togglePlay_tracks (s : AppState) :
    (togglePlay s).tracks = s.tracks := by
  unfold togglePlay; split <;> simp

@[simp] theorem playTrack_waveformData (s : AppState) (t : Track) :
    (playTrack s t).waveformData = s.waveformData := by
  unfold playTrack; split <;> simp

@[simp] theorem playTrack_tracks (s : AppState) (t : Track) :
    (playTrack s t).tracks = s.tracks := by
  unfold playTrack; split <;> simp

@[simp] theorem handleSeek_currentTrack (s : AppState) (f : ℚ) :
    (handleSeek s f).currentTrack = s.currentTrack := by
  unfold handleSeek; split <;> rfl

@[simp] theorem handleSeek_isPlaying (s : AppState) (f : ℚ) :
    (handleSeek s f).isPlaying = s.isPlaying := by
  unfold handleSeek; split <;> rfl

@[simp] theorem handleSeek_waveformData (s : AppState) (f : ℚ) :
    (handleSeek s f).waveformData = s.waveformData := by
  unfold handleSeek; split <;> rfl

@[simp] theorem handleTimeUpdate_currentTrack (s : AppState) :
    (handleTimeUpdate s).currentTrack = s.currentTrack := by
  unfold handleTimeUpdate; split
  · split <;> rfl
  · rfl

@[simp] theorem handleTimeUpdate_isPlaying (s : AppState) :
    (handleTimeUpdate s).isPlaying = s.isPlaying := by
  unfold handleTimeUpdate; split
  · split <;> rfl
  · rfl

@[simp] theorem handleTimeUpdate_waveformData (s : AppState) :
    (handleTimeUpdate s).waveformData = s.waveformData := by
  unfold handleTimeUpdate; split
  · split <;> rfl
  · rfl

@[simp] theorem removeTrack_waveformData (s : AppState) (id : String) :
    (removeTrack s id).waveformData = s.waveformData := by
  unfold removeTrack; split <;> rfl

@[simp] theorem updateWaveform_currentTrack (s : AppState) (sample : ℕ → Fin 256) :
    (updateWaveform s sample).currentTrack = s.currentTrack := by
  unfold updateWaveform; split <;> rfl

@[simp] theorem updateWaveform_isPlaying (s : AppState) (sample : ℕ → Fin 256) :
    (updateWaveform s sample).isPlaying = s.isPlaying := by
  unfold updateWaveform; split <;> rfl

/-- C3: for every fraction `f ∈ [0,1]` and a current track of duration
`D`, `handleSeek f` sets the media position to `f × D` and the progress to
`f × 100`, and leaves the play state (and current track) unchanged — the
state `s` is arbitrary, so the conclusion holds in `Loaded-Playing` and
`Loaded-Paused` alike. -/
theorem c3_seek_spec (s : AppState) (t : Track) (f : ℚ)
    (hc : s.currentTrack = some t) (_h0 : 0 ≤ f) (_h1 : f ≤ 1) :
    (handleSeek s f).audioCurrentTime = f * t.duration ∧
    (handleSeek s f).progress = f * 100 ∧
    (handleSeek s f).isPlaying = s.isPlaying ∧
    (handleSeek s f).currentTrack = some t := by
  simp [handleSeek, hc]

/-- Witness for C3 at the concrete playing state, with `f = 1/2` and
`D = 180`: position becomes 90 and progress becomes 50. -/
theorem c3_seek_witness :
    (handleSeek playingState (1/2)).audioCurrentTime = 90 ∧
    (handleSeek playingState (1/2)).progress = 50 := by
  have h := c3_seek_spec playingState demoTrack (1/2) (by decide)
    (by norm_num) (by norm_num)
  refine ⟨?_, ?_⟩
  · rw [h.1]; norm_num [demoTrack, decodeStub, demoFile]
  · rw [h.2.1]; norm_num

/-- C6: `togglePlay` is its own inverse on the play flag: applying it
twice returns `isPlaying` to its original value. (The media handle — the
hidden audio element — always exists, so the `if (audioRef.current)`
guard is always taken.) -/
theorem c6_toggle_involutive (s : AppState) :
    (togglePlay (togglePlay s)).isPlaying = s.isPlaying := by
  simp

/-- C7: removing the current track filters it out of the registry and
transitions playback to Idle: no current track and not playing. -/
theorem c7_remove_current (s : AppState) (t : Track)
    (hc : s.currentTrack = some t) :
    (removeTrack s t.id).tracks = s.tracks.filter (fun tr => tr.id ≠ t.id) ∧
    t ∉ (removeTrack s t.id).tracks ∧
    (removeTrack s t.id).currentTrack = none ∧
    (removeTrack s t.id).isPlaying = false := by
  unfold removeTrack
  simp [hc, List.mem_filter]

/-- Witness for C7: removing the demo track from the playing state
empties the registry and lands in Idle. -/
theorem c7_remove_current_witness :
    (removeTrack playingState demoTrack.id).currentTrack = none ∧
    (removeTrack playingState demoTrack.id).isPlaying = false := by
  have h := c7_remove_current playingState demoTrack (by decide)
  exact ⟨h.2.2.1, h.2.2.2⟩

/-- C8: the `ended` listener transitions to `Loaded-Paused`: `isPlaying`
becomes false, the current track stays set, and the registry is untouched
(no auto-advance to another track). -/
theorem c8_natural_end (s : AppState) (t : Track)
    (hc : s.currentTrack = some t) :
    (onEnded s).isPlaying = false ∧
    (onEnded s).currentTrack = some t ∧
    (onEnded s).tracks = s.tracks := by
  simp [onEnded, hc]

/-- Witness for C8 at the concrete playing state. -/
theorem c8_natural_end_witness :
    (onEnded playingState).isPlaying = false ∧
    (onEnded playingState).currentTrack = some demoTrack :=
  ⟨(c8_natural_end playingState demoTrack (by decide)).1,
   (c8_natural_end playingState demoTrack (by decide)).2.1⟩

/-- C10: removing a non-current track id removes exactly the tracks
bearing that id from the registry and leaves the current track, the play
flag, the progress and the volume unchanged. -/
theorem c10_remove_other (s : AppState) (x : String)
    (hx : s.currentTrack.map Track.id ≠ some x) :
    (∀ tr : Track, tr ∈ (removeTrack s x).tracks ↔ tr ∈ s.tracks ∧ tr.id ≠ x) ∧
    (removeTrack s x).currentTrack = s.currentTrack ∧
    (removeTrack s x).isPlaying = s.isPlaying ∧
    (removeTrack s x).progress = s.progress ∧
    (removeTrack s x).volume = s.volume := by
  unfold removeTrack
  simp [hx, List.mem_filter]

/-- Witness for C10: removing an absent, non-current id from the playing
state leaves the playback fields alone. -/
theorem c10_remove_other_witness :
    (removeTrack playingState "other-id").currentTrack = playingState.currentTrack ∧
    (removeTrack playingState "other-id").isPlaying = playingState.isPlaying :=
  ⟨(c10_remove_other playingState "other-id" (by decide)).2.1,
   (c10_remove_other playingState "other-id" (by decide)).2.2.1⟩

/-- C2: clicking a track that is already current is literally a
`togglePlay` call (no track switch); clicking a non-current track makes it
current, sets `isPlaying`, and issues exactly one `play` command to the
media handle. -/
theorem c2_select_spec (s : AppState) (t : Track) :
    (s.currentTrack.map Track.id = some t.id → playTrack s t = togglePlay s) ∧
    (s.currentTrack.map Track.id ≠ some t.id →
      (playTrack s t).currentTrack = some t ∧
      (playTrack s t).isPlaying = true ∧
      (playTrack s t).cmds = s.cmds ++ [MediaCmd.play]) := by
  constructor
  · intro h
    unfold playTrack
    simp [h]
  · intro h
    unfold playTrack
    simp [h]

/-- Witness for C2, covering both branches at concrete states: selecting
the current demo track equals toggling; selecting it while nothing is
current loads and plays it. -/
theorem c2_select_witness :
    playTrack playingState demoTrack = togglePlay playingState ∧
    playingState.currentTrack = some demoTrack ∧
    playingState.isPlaying = true :=
  ⟨(c2_select_spec playingState demoTrack).1 (by decide),
   ((c2_select_spec uploadedState demoTrack).2 (by decide)).1,
   ((c2_select_spec uploadedState demoTrack).2 (by decide)).2.1⟩

/-- C5 counterexample: the upload filter also admits a file whose declared
MIME type is `audio/mp3` even though its name does not end in `.mp3`
(App.tsx line 60 has a third disjunct the claim omits), so a file that the
claim says must be ignored does change the registry. -/
theorem c5_filter_counterexample :
    ¬(mp3TypedWav.type = "audio/mpeg" ∨ strEndsWith mp3TypedWav.name ".mp3" = true) ∧
    (handleFileUpload initialState [mp3TypedWav] decodeStub).tracks ≠ [] := by
  constructor
  · decide
  · decide

/-- C5 amended: a file enters the registry exactly when its declared MIME
type is `audio/mpeg` or `audio/mp3`, or its name ends in `.mp3`; every
other file is skipped with no error and leaves the state — registry
included — unchanged. -/
theorem c5_filter_amended (s : AppState) (files : List UploadFile)
    (decode : UploadFile → Track) :
    (handleFileUpload s files decode).tracks
      = s.tracks ++ (files.filter acceptsFile).map decode ∧
    (∀ f : UploadFile, acceptsFile f = true ↔
      (f.type = "audio/mpeg" ∨ f.type = "audio/mp3" ∨
        strEndsWith f.name ".mp3" = true)) ∧
    (∀ f : UploadFile, acceptsFile f = false →
      handleFileUpload s [f] decode = s) := by
  refine ⟨rfl, ?_, ?_⟩
  · intro f
    simp [acceptsFile, or_assoc]
  · intro f hf
    simp [handleFileUpload, List.filter, hf]

/-- Witness for C5: the `.wav` upload is rejected and the fresh component
state is untouched by it. -/
theorem c5_filter_witness :
    acceptsFile wavFile = false ∧
    handleFileUpload initialState [wavFile] decodeStub = initialState :=
  ⟨by decide,
   (c5_filter_amended initialState [wavFile] decodeStub).2.2 wavFile (by decide)⟩

/-- C9: the bar renderer is a pure total function of the snapshot and the
play flag — one bar per bin, height `max(4, value/255*100)` percent while
playing, forced to the 4 percent minimum when paused; it is defined (and
yields no bars / all-minimum bars) on the empty and the all-zero
snapshot. -/
theorem c9_visualizer (wf : List ℕ) (b : Bool) (i : ℕ) (h : i < wf.length) :
    (renderBars wf b).length = wf.length ∧
    (renderBars wf true).get ⟨i, by simpa [renderBars] using h⟩
      = barHeight (wf.get ⟨i, h⟩) ∧
    (renderBars wf false).get ⟨i, by simpa [renderBars] using h⟩ = 4 ∧
    renderBars [] b = [] ∧
    renderBars (List.replicate 64 0) b = List.replicate 64 4 := by
  refine ⟨by simp [renderBars], ?_, ?_, rfl, ?_⟩
  · simp [renderBars]
  · simp [renderBars]
  · cases b <;> simp [renderBars, barHeight, List.map_replicate]

/-- Witness for C9 on the snapshot `[0, 255, 128]`: three bars, and the
bar of the saturated bin reaches full height while playing. -/
theorem c9_visualizer_witness :
    (renderBars [0, 255, 128] true).length = 3 ∧
    (renderBars [0, 255, 128] true).get ⟨1, by simp [renderBars]⟩ = 100 := by
  have h := c9_visualizer [0, 255, 128] true 1 (by norm_num)
  refine ⟨h.1, ?_⟩
  rw [h.2.1]
  norm_num [barHeight]

/-- Every event preserves the snapshot shape: 64 entries, byte-valued.
Only the `frame` event rewrites the snapshot, and it writes
`frequencyBinCount = 64` bytes. -/
theorem step_preserves_snapshot {s s' : AppState} (hstep : Step s s')
    (ih : s.waveformData.length = 64 ∧ ∀ v ∈ s.waveformData, v ≤ 255) :
    s'.waveformData.length = 64 ∧ ∀ v ∈ s'.waveformData, v ≤ 255 := by
  cases hstep with
  | upload files decode => simpa [handleFileUpload] using ih
  | select track h => simpa using ih
  | toggle h => simpa using ih
  | remove id h => simpa using ih
  | seek percent h hp => simpa using ih
  | setVol v h => simpa [handleVolumeChange] using ih
  | ended => simpa [onEnded] using ih
  | timeupdate h => simpa using ih
  | frame sample =>
      unfold updateWaveform
      split
      · refine ⟨?_, ?_⟩
        · simp [frequencyBinCount, fftSize]
        · intro v hv
          simp [List.mem_range] at hv
          obtain ⟨i, -, hi⟩ := hv
          have hlt := (sample i).isLt
          omega
      · exact ih

/-- C1 counterexample: the snapshot never has 32 entries — already the
initial snapshot `new Array(64).fill(0)` has 64. -/
theorem c1_snapshot_counterexample : initialState.waveformData.length ≠ 32 := by
  decide

/-- C1 amended: in every reachable state the Spectrum Snapshot has
constant length 64 (one entry per analysis bin, `fftSize 128 / 2`)
regardless of playback state, every value lies in `[0, 255]`, and the
initial snapshot also has this length. -/
theorem c1_snapshot_inv (s : AppState) (h : Reachable s) :
    s.waveformData.length = 64 ∧ ∀ v ∈ s.waveformData, v ≤ 255 := by
  induction h with
  | refl => exact ⟨by decide, by decide⟩
  | tail h1 h2 ih => exact step_preserves_snapshot h2 ih

/-- Witness for C1 at the initial state (reachable by the empty event
sequence). -/
theorem c1_snapshot_witness : initialState.waveformData.length = 64 :=
  (c1_snapshot_inv initialState Relation.ReflTransGen.refl).1

/-- Every event preserves "playing implies a current track". The toggle
and seek events are only enabled when the controls they come from are
rendered, which requires a current track. -/
theorem step_preserves_playing {s s' : AppState} (hstep : Step s s')
    (ih : s.isPlaying = true → s.currentTrack.isSome = true) :
    s'.isPlaying = true → s'.currentTrack.isSome = true := by
  cases hstep with
  | upload files decode =>
      intro hp
      simp only [handleFileUpload] at hp ⊢
      exact ih hp
  | select track h =>
      intro hp
      unfold playTrack at hp ⊢
      by_cases hc : s.currentTrack.map Track.id = some track.id
      · rw [if_pos hc] at hp ⊢
        obtain ⟨u, hu, -⟩ := Option.map_eq_some'.mp hc
        simp [hu]
      · rw [if_neg hc] at hp ⊢
        simp
  | toggle h =>
      intro hp
      simpa using h
  | remove id h =>
      intro hp
      unfold removeTrack at hp ⊢
      by_cases hc : s.currentTrack.map Track.id = some id
      · simp [hc] at hp
      · simp [hc] at hp ⊢
        exact ih hp
  | seek percent h hp2 =>
      intro hp
      simp only [handleSeek_isPlaying] at hp
      simpa using ih hp
  | setVol v h =>
      intro hp
      simp only [handleVolumeChange] at hp ⊢
      exact ih hp
  | ended =>
      intro hp
      simp [onEnded] at hp
  | timeupdate h =>
      intro hp
      simp only [handleTimeUpdate_isPlaying] at hp
      simpa using ih hp
  | frame sample =>
      intro hp
      simp only [updateWaveform_isPlaying] at hp
      simpa using ih hp

/-- C4: in every state reachable from the initial state by the
component's events, `isPlaying` implies a current track exists. -/
theorem c4_playing_implies_current (s : AppState) (h : Reachable s)
    (hp : s.isPlaying = true) : s.currentTrack.isSome = true := by
  revert hp
  induction h with
  | refl =>
      intro hp
      simp [initialState] at hp
  | tail h1 h2 ih => exact step_preserves_playing h2 ih

/-- The playing demo state is reachable: upload `track1.mp3`, then select
it. -/
theorem reachable_playingState : Reachable playingState := by
  have h1 : Step initialState uploadedState :=
    Step.upload initialState [demoFile] decodeStub
  have h2 : Step uploadedState playingState :=
    Step.select uploadedState demoTrack (by decide)
  exact Relation.ReflTransGen.head h1 (Relation.ReflTransGen.single h2)

/-- Witness for C4 at the reachable playing state, where `isPlaying` is
true and the current track is indeed set. -/
theorem c4_witness : playingState.currentTrack.isSome = true :=
  c4_playing_implies_current playingState reachable_playingState (by decide)

end SpaceDJ
